import Mathlib

/-!
Verification of the pula-mobile client state-synchronization layer.

This file gives a shallow embedding of the client-side state containers
(language, lexeme, auth), the persistent key-value store, the request
orchestrator operations from src/hooks/useApiWithStore.ts, the API client
from lib/api, and the debounced search trigger from
src/components/SearchBar.tsx.  Asynchronous network calls are embedded by
passing the outcome of the (at most one) network call of an operation as an
explicit parameter; each operation is a pure function from the pre-states
and that outcome to the post-states together with the list of network
requests it issued and the list of toast notifications it showed.

A text persisted in the key-value store that JSON.parse accepts is
identified with the value it denotes (constructor stored); a text that
JSON.parse rejects is kept abstract (constructor corrupt).  Raw string
keys (auth token, username) are persisted without JSON serialization and
are modelled as plain optional strings.
-/

namespace Pula

/-- JavaScript whitespace test for the characters relevant here (space, tab,
newline, carriage return), used to model String.prototype.trim. -/
def isJsSpace (c : Char) : Bool :=
  c = ' ' ∨ c = '\t' ∨ c = '\n' ∨ c = '\r'

/-- Model of JavaScript String.prototype.trim: drop leading and trailing
whitespace characters. -/
def jsTrim (s : String) : String :=
  ⟨(((s.data.dropWhile isJsSpace).reverse.dropWhile isJsSpace).reverse)⟩

/-- Language record from types/api. -/
structure Language where
  lang_code : String
  lang_label : String
  lang_wd_id : String
deriving DecidableEq

/-- Search request shape sent to the api client (ismatch, search, src_lang). -/
structure LexemeSearchRequest where
  ismatch : Nat
  search : String
  src_lang : String
deriving DecidableEq

/-- One lexeme search result (id, label, description). -/
structure LexemeSearchResult where
  id : String
  label : String
  description : String
deriving DecidableEq

/-- Gloss payload of a sense: formId, optional value, language code, optional audio URL. -/
structure Gloss where
  formId : String
  value : Option String
  language : String
  audio : Option String
deriving DecidableEq

/-- Pair of a sense id and its gloss, as rendered by TabContent. -/
structure GlossWithSense where
  senseId : String
  gloss : Gloss
deriving DecidableEq

/-- Lexeme header inside a detail result. -/
structure LexemeDetail where
  id : String
  image : Option String
  lexicalCategoryId : String
  lexicalCategoryLabel : String
deriving DecidableEq

/-- Full detail payload: the lexeme header and the glosses over all languages. -/
structure LexemeDetailResult where
  lexeme : LexemeDetail
  glosses : List GlossWithSense
deriving DecidableEq

/-- Detail request shape sent to the api client. -/
structure LexemeDetailRequest where
  id : String
  src_lang : String
  lang_1 : String
  lang_2 : String
deriving DecidableEq

/-- Normalized api failure shape produced by the response interceptor of lib/api. -/
structure ApiError where
  message : String
  status : Option Nat
deriving DecidableEq

/-- One transient toast notification (title and message), as shown by lib/toast. -/
structure Toast where
  title : String
  message : String
deriving DecidableEq

/-- One persisted key of the key-value store holding a JSON text.  A text that
JSON.parse accepts is identified with the value it denotes; corrupt s stands
for a text s that JSON.parse rejects. -/
inductive Cell (α : Type) where
  | absent
  | stored (v : α)
  | corrupt (s : String)
deriving DecidableEq

/-- Value persisted under the SELECTED_LEXEME key.  getLexemeDetails persists a
detail result there while setClickedLexeme persists the clicked search result
(possibly null) under the same key; both writers share the key, so the cell
carries either shape. -/
inductive SelLexStored where
  | sdetail (d : LexemeDetailResult)
  | sclicked (c : Option LexemeSearchResult)
deriving DecidableEq

/-- The persistent key-value store, one field per fixed string key constant.
The auth token and username are persisted as raw strings (no JSON), so their
cells are plain optional strings. -/
structure Storage where
  selectedSourceLanguageKey : Cell (Option Language)
  selectedTargetLanguage1Key : Cell (Option Language)
  selectedTargetLanguage2Key : Cell (Option Language)
  listOfLanguagesKey : Cell (List Language)
  listOfLexemesKey : Cell (List LexemeSearchResult)
  selectedLexemeKey : Cell SelLexStored
  clickedLexemeKey : Cell (Option LexemeSearchResult)
  authTokenKey : Option String
  usernameKey : Option String
deriving DecidableEq

/-- Storage with every key absent. -/
def emptyStorage : Storage :=
  ⟨.absent, .absent, .absent, .absent, .absent, .absent, .absent, none, none⟩

/-- Language container state from src/stores/languageStore.ts. -/
structure LanguageContainer where
  languages : List Language
  selectedSourceLanguage : Option Language
  selectedTargetLanguage1 : Option Language
  selectedTargetLanguage2 : Option Language
  loading : Bool
  error : Option String
  showSelectLanguageModal : Bool
deriving DecidableEq

/-- Initial language container state. -/
def initialLanguageState : LanguageContainer :=
  ⟨[], none, none, none, false, none, false⟩

/-- Runtime value of the selectedLexeme field.  Its TypeScript annotation is
LexemeDetailResult or null, but hydration of the shared SELECTED_LEXEME key
can also install a clicked search result there, so the model keeps both. -/
inductive SelLexVal where
  | detail (d : LexemeDetailResult)
  | clicked (c : LexemeSearchResult)
deriving DecidableEq

/-- Lexeme container state from the lexeme store. -/
structure LexemeContainer where
  lexemes : List LexemeSearchResult
  query : String
  selectedLexeme : Option SelLexVal
  clickedLexeme : Option LexemeSearchResult
  loading : Bool
  error : Option String
deriving DecidableEq

/-- Initial lexeme container state. -/
def initialLexemeState : LexemeContainer :=
  ⟨[], "", none, none, false, none⟩

/-- Auth container state from src/stores/authStore.ts. -/
structure AuthContainer where
  token : Option String
  username : String
deriving DecidableEq

/-- Initial auth container state. -/
def initialAuthState : AuthContainer := ⟨none, ""⟩

/-- Outcome of reading one persisted JSON cell the way hydrate does: the JS
truthiness guard skips an absent key and skips an empty stored text; a
non-empty text that JSON.parse rejects raises a parse error. -/
inductive ReadOutcome (α : Type) where
  | install (v : α)
  | skip
  | parseError
deriving DecidableEq

/-- Read one JSON cell under the hydrate pattern of the stores: getItem
followed by a truthiness guard followed by JSON.parse. -/
def readCell {α : Type} : Cell α → ReadOutcome α
  | .absent => .skip
  | .stored v => .install v
  | .corrupt s => if s = "" then .skip else .parseError

/-- Cell predicate: reading the cell does not raise a parse error. -/
def cellOk {α : Type} : Cell α → Bool
  | .corrupt s => s = ""
  | _ => true

/-- Value a field holds after hydration from one cell: the stored value when
present, the previous value otherwise. -/
def hydratedField {α β : Type} (c : Cell α) (f : α → β) (old : β) : β :=
  match readCell c with
  | .install v => f v
  | _ => old

/-- One hydration step: apply one read outcome to a field update and continue,
aborting with the parse exception on a corrupt text; the updates made by the
earlier steps survive the abort, since the source has no try-catch. -/
def hydrateStep {σ α : Type} (st : σ) (r : ReadOutcome α)
    (setField : σ → α → σ) (k : σ → σ × Except String Unit) :
    σ × Except String Unit :=
  match r with
  | .parseError => (st, .error "JSON parse error")
  | .skip => k st
  | .install v => k (setField st v)

/-- setSelectedSourceLanguage from languageStore: updates the in-memory slot
and persists the JSON text of the value (JSON.stringify of null included). -/
def setSelectedSourceLanguage (st : LanguageContainer) (sto : Storage)
    (language : Option Language) : LanguageContainer × Storage :=
  ({ st with selectedSourceLanguage := language },
   { sto with selectedSourceLanguageKey := .stored language })

/-- setSelectedTargetLanguage1 from languageStore. -/
def setSelectedTargetLanguage1 (st : LanguageContainer) (sto : Storage)
    (language : Option Language) : LanguageContainer × Storage :=
  ({ st with selectedTargetLanguage1 := language },
   { sto with selectedTargetLanguage1Key := .stored language })

/-- setSelectedTargetLanguage2 from languageStore. -/
def setSelectedTargetLanguage2 (st : LanguageContainer) (sto : Storage)
    (language : Option Language) : LanguageContainer × Storage :=
  ({ st with selectedTargetLanguage2 := language },
   { sto with selectedTargetLanguage2Key := .stored language })

/-- hydrate from languageStore: reads the three persisted selected-language
keys, then installs each present value in order (source, target1, target2);
JSON.parse of a corrupt text raises and aborts the remaining installs. -/
def hydrateLanguage (st : LanguageContainer) (sto : Storage) :
    LanguageContainer × Except String Unit :=
  hydrateStep st (readCell sto.selectedSourceLanguageKey)
      (fun s v => { s with selectedSourceLanguage := v }) fun st =>
  hydrateStep st (readCell sto.selectedTargetLanguage1Key)
      (fun s v => { s with selectedTargetLanguage1 := v }) fun st =>
  hydrateStep st (readCell sto.selectedTargetLanguage2Key)
      (fun s v => { s with selectedTargetLanguage2 := v }) fun st =>
  (st, .ok ())

/-- Translation of a value persisted under the SELECTED_LEXEME key into the
runtime selectedLexeme field: hydrate installs whatever JSON.parse returned,
so a persisted clicked search result (or null) lands in the field unchanged. -/
def installSelLex : SelLexStored → Option SelLexVal
  | .sdetail d => some (.detail d)
  | .sclicked none => none
  | .sclicked (some c) => some (.clicked c)

/-- hydrate from the lexeme store: reads LIST_OF_LEXEMES, SELECTED_LEXEME and
CLICKED_LEXEME, installing each present value in that order; JSON.parse of a
corrupt text raises and aborts the remaining installs. -/
def hydrateLexeme (st : LexemeContainer) (sto : Storage) :
    LexemeContainer × Except String Unit :=
  hydrateStep st (readCell sto.listOfLexemesKey)
      (fun s v => { s with lexemes := v }) fun st =>
  hydrateStep st (readCell sto.selectedLexemeKey)
      (fun s v => { s with selectedLexeme := installSelLex v }) fun st =>
  hydrateStep st (readCell sto.clickedLexemeKey)
      (fun s v => { s with clickedLexeme := v }) fun st =>
  (st, .ok ())

/-- hydrate from authStore: reads the raw token text and installs it when it
is non-empty (the truthiness guard skips the empty string); the token is not
JSON, so this hydration cannot raise. -/
def hydrateAuth (st : AuthContainer) (sto : Storage) : AuthContainer :=
  match sto.authTokenKey with
  | none => st
  | some s => if s = "" then st else { st with token := some s }

/-- Return value of an orchestrator operation: a value, the bare return of a
precondition no-op (undefined in the source), or a re-thrown api error. -/
inductive OpResult (α : Type) where
  | ok (v : α)
  | retNone
  | thrown (e : ApiError)
deriving DecidableEq

/-- Effects of one searchLexemes invocation. -/
structure SearchEffects where
  lexState : LexemeContainer
  storage : Storage
  networkCalls : List LexemeSearchRequest
  toasts : List Toast
  result : OpResult (List LexemeSearchResult)
deriving DecidableEq

/-- searchLexemes from src/hooks/useApiWithStore.ts: sets loading true, clears
error, records the query, then returns early when the search text or the
source language code is the empty string; otherwise performs the network call
(whose outcome is the apiResponse parameter), stores and persists the results
on success, or records the error, shows a toast and re-throws on failure.
The try-finally clears loading on both network outcomes; the early return
happens before the try block. -/
def searchLexemes (st : LexemeContainer) (sto : Storage)
    (request : LexemeSearchRequest)
    (apiResponse : Except ApiError (List LexemeSearchResult)) : SearchEffects :=
  let st1 : LexemeContainer :=
    { st with loading := true, error := none, query := request.search }
  if request.search = "" ∨ request.src_lang = "" then
    { lexState := st1, storage := sto, networkCalls := [], toasts := [],
      result := .retNone }
  else
    match apiResponse with
    | .ok lexemes =>
        { lexState := { st1 with lexemes := lexemes, loading := false },
          storage := { sto with listOfLexemesKey := .stored lexemes },
          networkCalls := [request], toasts := [],
          result := .ok lexemes }
    | .error e =>
        { lexState := { st1 with error := some e.message, loading := false },
          storage := sto,
          networkCalls := [request],
          toasts := [⟨"Error searching lexemes", e.message⟩],
          result := .thrown e }

/-- C1: the claim states that a request whose query is empty after trimming
never reaches the network and never sets loading true.  The code only tests
the untrimmed text: the whitespace query below trims to empty yet the network
is invoked, and the loading flag is set to true. -/
theorem c1_counterexample :
    jsTrim " " = "" ∧
    (searchLexemes initialLexemeState emptyStorage ⟨0, " ", "en"⟩
        (.ok [])).networkCalls = [⟨0, " ", "en"⟩] ∧
    (searchLexemes initialLexemeState emptyStorage ⟨0, "", "en"⟩
        (.ok [])).lexState.loading = true := by
  refine ⟨by decide, ?_, ?_⟩ <;> rfl

/-- C1 (amended): when the untrimmed query or the source language code is the
empty string, searchLexemes issues no network call, leaves the error field
unset and leaves the storage untouched, but the loading flag has been set to
true and the early return leaves it true. -/
theorem searchLexemes_empty_noop (st : LexemeContainer) (sto : Storage)
    (request : LexemeSearchRequest) (api : Except ApiError (List LexemeSearchResult))
    (h : request.search = "" ∨ request.src_lang = "") :
    (searchLexemes st sto request api).networkCalls = [] ∧
    (searchLexemes st sto request api).lexState.error = none ∧
    (searchLexemes st sto request api).lexState.loading = true ∧
    (searchLexemes st sto request api).result = .retNone ∧
    (searchLexemes st sto request api).storage = sto := by
  simp [searchLexemes, if_pos h]

/-- Witness for searchLexemes_empty_noop at the empty query. -/
theorem searchLexemes_empty_noop_witness :
    (searchLexemes initialLexemeState emptyStorage ⟨0, "", "en"⟩
        (.ok [])).networkCalls = [] ∧
    (searchLexemes initialLexemeState emptyStorage ⟨0, "", "en"⟩
        (.ok [])).lexState.error = none ∧
    (searchLexemes initialLexemeState emptyStorage ⟨0, "", "en"⟩
        (.ok [])).lexState.loading = true ∧
    (searchLexemes initialLexemeState emptyStorage ⟨0, "", "en"⟩
        (.ok [])).result = .retNone ∧
    (searchLexemes initialLexemeState emptyStorage ⟨0, "", "en"⟩
        (.ok [])).storage = emptyStorage :=
  searchLexemes_empty_noop initialLexemeState emptyStorage ⟨0, "", "en"⟩
    (.ok []) (Or.inl rfl)

/-- Storage holding one malformed persisted value under the selected source
language key. -/
def c5Storage : Storage :=
  { emptyStorage with selectedSourceLanguageKey := .corrupt "not json" }

/-- C5: the claim states that hydrate never throws and treats a malformed
persisted value as absent.  The source wraps no try-catch around JSON.parse:
on the storage whose selected-source-language text is the unparseable
"not json", hydrate raises a parse exception instead of keeping the default. -/
theorem c5_counterexample :
    (hydrateLanguage initialLanguageState c5Storage).2 =
      .error "JSON parse error" := rfl

/-- Helper: language hydration over well-formed cells finishes without raising
and updates each selected-language field from its cell. -/
theorem hydrateLanguage_ok_aux (st : LanguageContainer) (sto : Storage)
    (h1 : cellOk sto.selectedSourceLanguageKey = true)
    (h2 : cellOk sto.selectedTargetLanguage1Key = true)
    (h3 : cellOk sto.selectedTargetLanguage2Key = true) :
    (hydrateLanguage st sto).2 = .ok () ∧
    (hydrateLanguage st sto).1 =
      { st with
        selectedSourceLanguage :=
          hydratedField sto.selectedSourceLanguageKey id st.selectedSourceLanguage,
        selectedTargetLanguage1 :=
          hydratedField sto.selectedTargetLanguage1Key id st.selectedTargetLanguage1,
        selectedTargetLanguage2 :=
          hydratedField sto.selectedTargetLanguage2Key id st.selectedTargetLanguage2 } := by
  rcases sto with ⟨c1, c2, c3, c4, c5, c6, c7, t, u⟩
  cases c1 <;> cases c2 <;> cases c3 <;>
    simp_all [hydrateLanguage, hydrateStep, readCell, hydratedField, cellOk]

/-- Helper: lexeme hydration over well-formed cells finishes without raising
and updates the lexeme list, selected lexeme and clicked lexeme from their
cells. -/
theorem hydrateLexeme_ok_aux (st : LexemeContainer) (sto : Storage)
    (h4 : cellOk sto.listOfLexemesKey = true)
    (h5 : cellOk sto.selectedLexemeKey = true)
    (h6 : cellOk sto.clickedLexemeKey = true) :
    (hydrateLexeme st sto).2 = .ok () ∧
    (hydrateLexeme st sto).1 =
      { st with
        lexemes := hydratedField sto.listOfLexemesKey id st.lexemes,
        selectedLexeme :=
          hydratedField sto.selectedLexemeKey installSelLex st.selectedLexeme,
        clickedLexeme := hydratedField sto.clickedLexemeKey id st.clickedLexeme } := by
  rcases sto with ⟨c1, c2, c3, c4, c5, c6, c7, t, u⟩
  cases c5 <;> cases c6 <;> cases c7 <;>
    simp_all [hydrateLexeme, hydrateStep, readCell, hydratedField, cellOk]

/-- C5 (amended): when no persisted text read by hydrate is a non-empty
unparseable string, hydrate raises nothing: it installs each present value
and keeps the previous field value where the key is absent.  A malformed
value, however, makes hydrate throw (the installs made before it survive). -/
theorem hydrate_ok_of_wellformed (stL : LanguageContainer)
    (stX : LexemeContainer) (sto : Storage)
    (h1 : cellOk sto.selectedSourceLanguageKey = true)
    (h2 : cellOk sto.selectedTargetLanguage1Key = true)
    (h3 : cellOk sto.selectedTargetLanguage2Key = true)
    (h4 : cellOk sto.listOfLexemesKey = true)
    (h5 : cellOk sto.selectedLexemeKey = true)
    (h6 : cellOk sto.clickedLexemeKey = true) :
    (hydrateLanguage stL sto).2 = .ok () ∧
    (hydrateLanguage stL sto).1 =
      { stL with
        selectedSourceLanguage :=
          hydratedField sto.selectedSourceLanguageKey id stL.selectedSourceLanguage,
        selectedTargetLanguage1 :=
          hydratedField sto.selectedTargetLanguage1Key id stL.selectedTargetLanguage1,
        selectedTargetLanguage2 :=
          hydratedField sto.selectedTargetLanguage2Key id stL.selectedTargetLanguage2 } ∧
    (hydrateLexeme stX sto).2 = .ok () ∧
    (hydrateLexeme stX sto).1 =
      { stX with
        lexemes := hydratedField sto.listOfLexemesKey id stX.lexemes,
        selectedLexeme :=
          hydratedField sto.selectedLexemeKey installSelLex stX.selectedLexeme,
        clickedLexeme := hydratedField sto.clickedLexemeKey id stX.clickedLexeme } :=
  ⟨(hydrateLanguage_ok_aux stL sto h1 h2 h3).1,
   (hydrateLanguage_ok_aux stL sto h1 h2 h3).2,
   (hydrateLexeme_ok_aux stX sto h4 h5 h6).1,
   (hydrateLexeme_ok_aux stX sto h4 h5 h6).2⟩

/-- Witness for hydrate_ok_of_wellformed on the empty storage. -/
theorem hydrate_ok_of_wellformed_witness :
    (hydrateLanguage initialLanguageState emptyStorage).2 = .ok () ∧
    (hydrateLanguage initialLanguageState emptyStorage).1 =
      { initialLanguageState with
        selectedSourceLanguage :=
          hydratedField emptyStorage.selectedSourceLanguageKey id
            initialLanguageState.selectedSourceLanguage,
        selectedTargetLanguage1 :=
          hydratedField emptyStorage.selectedTargetLanguage1Key id
            initialLanguageState.selectedTargetLanguage1,
        selectedTargetLanguage2 :=
          hydratedField emptyStorage.selectedTargetLanguage2Key id
            initialLanguageState.selectedTargetLanguage2 } ∧
    (hydrateLexeme initialLexemeState emptyStorage).2 = .ok () ∧
    (hydrateLexeme initialLexemeState emptyStorage).1 =
      { initialLexemeState with
        lexemes := hydratedField emptyStorage.listOfLexemesKey id
          initialLexemeState.lexemes,
        selectedLexeme :=
          hydratedField emptyStorage.selectedLexemeKey installSelLex
            initialLexemeState.selectedLexeme,
        clickedLexeme := hydratedField emptyStorage.clickedLexemeKey id
          initialLexemeState.clickedLexeme } :=
  hydrate_ok_of_wellformed initialLanguageState initialLexemeState emptyStorage
    rfl rfl rfl rfl rfl rfl

/-- Helper: whatever the target-language cells hold (including corrupt texts
that abort hydration midway), the hydrated selected source language is the
value of the source cell when present and the previous value otherwise. -/
theorem hydrateLanguage_source (st : LanguageContainer) (sto : Storage) :
    (hydrateLanguage st sto).1.selectedSourceLanguage =
      hydratedField sto.selectedSourceLanguageKey id st.selectedSourceLanguage := by
  rcases sto with ⟨c1, c2, c3, c4, c5, c6, c7, t, u⟩
  cases c1 <;> cases c2 <;> cases c3 <;>
    simp [hydrateLanguage, hydrateStep, readCell, hydratedField] <;>
    split_ifs <;> rfl

/-- C6: writing a language value (or null) through setSelectedSourceLanguage
and hydrating a fresh container from the resulting storage yields that very
value in the selectedSourceLanguage slot, whatever the other persisted keys
hold (even a corrupt target-language text aborts hydration only after the
source slot was installed). -/
theorem setSource_hydrate_roundtrip (st0 : LanguageContainer) (sto : Storage)
    (l : Option Language) :
    ((hydrateLanguage initialLanguageState
        (setSelectedSourceLanguage st0 sto l).2).1).selectedSourceLanguage = l := by
  rw [hydrateLanguage_source]
  simp [setSelectedSourceLanguage, hydratedField, readCell]

/-- Effects of one getLexemeDetails invocation. -/
structure DetailEffects where
  lexState : LexemeContainer
  storage : Storage
  networkCalls : List LexemeDetailRequest
  toasts : List Toast
  result : OpResult LexemeDetailResult
deriving DecidableEq

/-- getLexemeDetails from src/hooks/useApiWithStore.ts: sets loading true and
clears the error, reads the clicked lexeme and the three selected languages
fresh from the stores, returns early (silently, loading left true) when any
of the four is null, and otherwise performs the network call with the request
built from those current values (the empty-string fallbacks of the source
collapse to the field values themselves).  On success the detail result is
persisted under SELECTED_LEXEME and installed; on failure the error message
is recorded, the selected lexeme is cleared, the persisted entry is removed,
a toast is shown and the error is re-thrown; the try-finally clears loading
on both network outcomes. -/
def getLexemeDetails (lex : LexemeContainer) (lang : LanguageContainer)
    (sto : Storage) (apiResponse : Except ApiError LexemeDetailResult) :
    DetailEffects :=
  let lex1 : LexemeContainer := { lex with loading := true, error := none }
  match lex.clickedLexeme, lang.selectedSourceLanguage,
      lang.selectedTargetLanguage1, lang.selectedTargetLanguage2 with
  | some clicked, some src, some t1, some t2 =>
      let request : LexemeDetailRequest :=
        ⟨clicked.id, src.lang_code, t1.lang_code, t2.lang_code⟩
      (match apiResponse with
      | .ok details =>
          { lexState :=
              { lex1 with selectedLexeme := some (.detail details)
                          loading := false },
            storage := { sto with selectedLexemeKey := .stored (.sdetail details) },
            networkCalls := [request], toasts := [], result := .ok details }
      | .error e =>
          { lexState :=
              { lex1 with error := some e.message, selectedLexeme := none
                          loading := false },
            storage := { sto with selectedLexemeKey := .absent },
            networkCalls := [request],
            toasts := [⟨"Error loading lexeme details", e.message⟩],
            result := .thrown e })
  | _, _, _, _ =>
      { lexState := lex1, storage := sto, networkCalls := [], toasts := [],
        result := .retNone }

/-- handleGetLexemeDetails from src/components/LexemeDetails.tsx: the
component validation shows the languages-required toast and aborts when the
source language is missing or both target languages are missing; otherwise it
delegates to getLexemeDetails (the catch in the component only logs, so all
effects are the ones the hook produced). -/
def handleGetLexemeDetails (lex : LexemeContainer) (lang : LanguageContainer)
    (sto : Storage) (apiResponse : Except ApiError LexemeDetailResult) :
    DetailEffects :=
  if lang.selectedSourceLanguage = none ∨
      (lang.selectedTargetLanguage1 = none ∧
        lang.selectedTargetLanguage2 = none) then
    { lexState := lex, storage := sto, networkCalls := [],
      toasts := [⟨"Languages required",
        "Please select source and target languages to get details."⟩],
      result := .retNone }
  else
    getLexemeDetails lex lang sto apiResponse

/-- Helper: behaviour of getLexemeDetails when the clicked lexeme and all
three languages are present. -/
theorem getLexemeDetails_some (lex : LexemeContainer) (lang : LanguageContainer)
    (sto : Storage) (api : Except ApiError LexemeDetailResult)
    (c : LexemeSearchResult) (s t1 t2 : Language)
    (hc : lex.clickedLexeme = some c)
    (hs : lang.selectedSourceLanguage = some s)
    (h1 : lang.selectedTargetLanguage1 = some t1)
    (h2 : lang.selectedTargetLanguage2 = some t2) :
    getLexemeDetails lex lang sto api =
      match api with
      | .ok details =>
          { lexState :=
              { lex with selectedLexeme := some (.detail details)
                         loading := false
                         error := none },
            storage := { sto with selectedLexemeKey := .stored (.sdetail details) },
            networkCalls := [⟨c.id, s.lang_code, t1.lang_code, t2.lang_code⟩],
            toasts := [], result := .ok details }
      | .error e =>
          { lexState :=
              { lex with error := some e.message, selectedLexeme := none
                         loading := false },
            storage := { sto with selectedLexemeKey := .absent },
            networkCalls := [⟨c.id, s.lang_code, t1.lang_code, t2.lang_code⟩],
            toasts := [⟨"Error loading lexeme details", e.message⟩],
            result := .thrown e } := by
  cases api <;> simp [getLexemeDetails, hc, hs, h1, h2]

/-- C4: when the detail fetch reaches the network (clicked lexeme and all
three languages present) and the call fails, the selected lexeme is cleared
and the persisted SELECTED_LEXEME entry is removed, whatever values the
container and the storage held before. -/
theorem getLexemeDetails_failure_clears (lex : LexemeContainer)
    (lang : LanguageContainer) (sto : Storage) (e : ApiError)
    (c : LexemeSearchResult) (s t1 t2 : Language)
    (hc : lex.clickedLexeme = some c)
    (hs : lang.selectedSourceLanguage = some s)
    (h1 : lang.selectedTargetLanguage1 = some t1)
    (h2 : lang.selectedTargetLanguage2 = some t2) :
    (getLexemeDetails lex lang sto (.error e)).lexState.selectedLexeme = none ∧
    (getLexemeDetails lex lang sto (.error e)).storage.selectedLexemeKey =
      .absent := by
  rw [getLexemeDetails_some lex lang sto (.error e) c s t1 t2 hc hs h1 h2]
  exact ⟨rfl, rfl⟩

/-- Language container with all three languages selected, used as a concrete
input in witnesses and counterexamples. -/
def demoLang : LanguageContainer :=
  { initialLanguageState with
    selectedSourceLanguage := some ⟨"en", "English", "Q1"⟩,
    selectedTargetLanguage1 := some ⟨"fr", "French", "Q2"⟩,
    selectedTargetLanguage2 := some ⟨"es", "Spanish", "Q3"⟩ }

/-- Lexeme container whose previously selected lexeme is a stale detail
result and whose clicked lexeme is present. -/
def demoLex : LexemeContainer :=
  { initialLexemeState with
    clickedLexeme := some ⟨"L10", "cat", "animal"⟩,
    selectedLexeme := some (.detail ⟨⟨"L9", none, "Q5", "noun"⟩, []⟩) }

/-- Witness for getLexemeDetails_failure_clears on concrete stores. -/
theorem getLexemeDetails_failure_clears_witness :
    (getLexemeDetails demoLex demoLang emptyStorage
        (.error ⟨"Server error", some 500⟩)).lexState.selectedLexeme = none ∧
    (getLexemeDetails demoLex demoLang emptyStorage
        (.error ⟨"Server error", some 500⟩)).storage.selectedLexemeKey =
      .absent :=
  getLexemeDetails_failure_clears demoLex demoLang emptyStorage
    ⟨"Server error", some 500⟩ ⟨"L10", "cat", "animal"⟩
    ⟨"en", "English", "Q1"⟩ ⟨"fr", "French", "Q2"⟩ ⟨"es", "Spanish", "Q3"⟩
    rfl rfl rfl rfl

/-- Lexeme container whose clicked lexeme has an empty id. -/
def emptyIdLex : LexemeContainer :=
  { initialLexemeState with clickedLexeme := some ⟨"", "cat", "animal"⟩ }

/-- C7: the claim states that an empty clickedLexeme.id aborts the detail
fetch without a network call.  Neither the component nor the hook checks the
id text: with a clicked lexeme whose id is empty and all three languages
selected, a network request (with the empty id) is issued, and no
languages-required toast is shown. -/
theorem c7_counterexample :
    (handleGetLexemeDetails emptyIdLex demoLang emptyStorage
        (.ok ⟨⟨"L1", none, "Q5", "noun"⟩, []⟩)).networkCalls =
      [⟨"", "en", "fr", "es"⟩] ∧
    (handleGetLexemeDetails emptyIdLex demoLang emptyStorage
        (.ok ⟨⟨"L1", none, "Q5", "noun"⟩, []⟩)).toasts = [] := by
  exact ⟨rfl, rfl⟩

/-- C7 (amended): the component shows the languages-required notice and skips
the fetch exactly when the source language is missing or both target
languages are missing; independently, the hook aborts silently (no network
call, no toast, bare return) when the clicked lexeme or any of the three
languages is null.  The id text itself is never validated. -/
theorem detail_precondition_behavior (lex : LexemeContainer)
    (lang : LanguageContainer) (sto : Storage)
    (api : Except ApiError LexemeDetailResult) :
    (lang.selectedSourceLanguage = none ∨
        (lang.selectedTargetLanguage1 = none ∧
          lang.selectedTargetLanguage2 = none) →
      (handleGetLexemeDetails lex lang sto api).networkCalls = [] ∧
      (handleGetLexemeDetails lex lang sto api).toasts =
        [⟨"Languages required",
          "Please select source and target languages to get details."⟩] ∧
      (handleGetLexemeDetails lex lang sto api).lexState = lex) ∧
    (lex.clickedLexeme = none ∨ lang.selectedSourceLanguage = none ∨
        lang.selectedTargetLanguage1 = none ∨
        lang.selectedTargetLanguage2 = none →
      (getLexemeDetails lex lang sto api).networkCalls = [] ∧
      (getLexemeDetails lex lang sto api).toasts = [] ∧
      (getLexemeDetails lex lang sto api).result = .retNone) := by
  constructor
  · intro h
    simp [handleGetLexemeDetails, if_pos h]
  · intro h
    have : (getLexemeDetails lex lang sto api) =
        { lexState := { lex with loading := true, error := none },
          storage := sto, networkCalls := [], toasts := [],
          result := .retNone } := by
      unfold getLexemeDetails
      rcases h with h | h | h | h <;> rw [h] <;>
        rcases lex.clickedLexeme with _ | c <;>
        rcases lang.selectedSourceLanguage with _ | s <;>
        rcases lang.selectedTargetLanguage1 with _ | t1 <;>
        rcases lang.selectedTargetLanguage2 with _ | t2 <;> rfl
    rw [this]
    exact ⟨rfl, rfl, rfl⟩

/-- Witness for detail_precondition_behavior with no language selected. -/
theorem detail_precondition_behavior_witness :
    (handleGetLexemeDetails initialLexemeState initialLanguageState
        emptyStorage (.ok ⟨⟨"L1", none, "Q5", "noun"⟩, []⟩)).networkCalls = [] ∧
    (handleGetLexemeDetails initialLexemeState initialLanguageState
        emptyStorage (.ok ⟨⟨"L1", none, "Q5", "noun"⟩, []⟩)).toasts =
      [⟨"Languages required",
        "Please select source and target languages to get details."⟩] ∧
    (handleGetLexemeDetails initialLexemeState initialLanguageState
        emptyStorage (.ok ⟨⟨"L1", none, "Q5", "noun"⟩, []⟩)).lexState =
      initialLexemeState :=
  (detail_precondition_behavior initialLexemeState initialLanguageState
      emptyStorage (.ok ⟨⟨"L1", none, "Q5", "noun"⟩, []⟩)).1 (Or.inl rfl)

/-- C8: the claim states that loading is false once any operation has
completed, a local precondition abort included.  The early precondition
return of searchLexemes happens after loading was set true and bypasses the
try-finally: on the empty query the operation completes with loading still
true. -/
theorem c8_counterexample :
    (searchLexemes initialLexemeState emptyStorage ⟨0, "", "en"⟩
        (.ok [])).lexState.loading = true ∧
    (getLexemeDetails initialLexemeState initialLanguageState emptyStorage
        (.ok ⟨⟨"L1", none, "Q5", "noun"⟩, []⟩)).lexState.loading = true := by
  exact ⟨rfl, rfl⟩

/-- C8 (amended): whenever the operation reaches the network (so the
try-finally wraps the call), loading is false after completion, on success
and on failure alike, for searchLexemes and getLexemeDetails both; a local
precondition abort, by contrast, leaves loading true. -/
theorem loading_cleared_after_network (st : LexemeContainer)
    (lang : LanguageContainer) (sto : Storage) (req : LexemeSearchRequest)
    (apiS : Except ApiError (List LexemeSearchResult))
    (apiD : Except ApiError LexemeDetailResult)
    (c : LexemeSearchResult) (s t1 t2 : Language)
    (hq : req.search ≠ "") (hl : req.src_lang ≠ "")
    (hc : st.clickedLexeme = some c)
    (hs : lang.selectedSourceLanguage = some s)
    (h1 : lang.selectedTargetLanguage1 = some t1)
    (h2 : lang.selectedTargetLanguage2 = some t2) :
    (searchLexemes st sto req apiS).lexState.loading = false ∧
    (getLexemeDetails st lang sto apiD).lexState.loading = false ∧
    (searchLexemes st sto ⟨req.ismatch, "", req.src_lang⟩
        apiS).lexState.loading = true ∧
    (getLexemeDetails { st with clickedLexeme := none } lang sto
        apiD).lexState.loading = true := by
  refine ⟨?_, ?_, ?_, ?_⟩
  · cases apiS <;> simp [searchLexemes, hq, hl]
  · rw [getLexemeDetails_some st lang sto apiD c s t1 t2 hc hs h1 h2]
    cases apiD <;> rfl
  · simp [searchLexemes]
  · simp [getLexemeDetails]

/-- Witness for loading_cleared_after_network on concrete stores. -/
theorem loading_cleared_after_network_witness :
    (searchLexemes demoLex emptyStorage ⟨0, "cat", "en"⟩
        (.ok [])).lexState.loading = false ∧
    (getLexemeDetails demoLex demoLang emptyStorage
        (.ok ⟨⟨"L1", none, "Q5", "noun"⟩, []⟩)).lexState.loading = false ∧
    (searchLexemes demoLex emptyStorage ⟨0, "", "en"⟩
        (.ok [])).lexState.loading = true ∧
    (getLexemeDetails { demoLex with clickedLexeme := none } demoLang
        emptyStorage
        (.ok ⟨⟨"L1", none, "Q5", "noun"⟩, []⟩)).lexState.loading = true :=
  loading_cleared_after_network demoLex demoLang emptyStorage ⟨0, "cat", "en"⟩
    (.ok []) (.ok ⟨⟨"L1", none, "Q5", "noun"⟩, []⟩)
    ⟨"L10", "cat", "animal"⟩ ⟨"en", "English", "Q1"⟩ ⟨"fr", "French", "Q2"⟩
    ⟨"es", "Spanish", "Q3"⟩ (by decide) (by decide) rfl rfl rfl rfl

/-- Modelled from the spec: checkIf401Error is defined in lib/utils, which is
missing from the sources (only its importer, the api client, is present).
Spec sections 4.3 and 7 mandate that a 401 on an authenticated call triggers
the shared session-expired handling, clearing the stored token and username
and returning the user to an unauthenticated state; on any other error it
does nothing beyond the ordinary error path. -/
def checkIf401Error (auth : AuthContainer) (sto : Storage) (e : ApiError) :
    AuthContainer × Storage :=
  if e.status = some 401 then
    (⟨none, ""⟩, { sto with authTokenKey := none, usernameKey := none })
  else
    (auth, sto)

/-- Effects of one addLabeledTranslation invocation. -/
structure AddEffects where
  lexState : LexemeContainer
  auth : AuthContainer
  storage : Storage
  toasts : List Toast
  result : OpResult Unit
deriving DecidableEq

/-- addLabeledTranslation across the hook (useApiWithStore) and the api
client: the hook attaches the current token, sets loading true and clears
the error; the client performs the POST, and on failure runs checkIf401Error
on the normalized error before re-throwing; the hook then records the error
message and re-throws; the finally clears loading on both outcomes. -/
def addLabeledTranslation (lex : LexemeContainer) (auth : AuthContainer)
    (sto : Storage) (apiResponse : Except ApiError Unit) : AddEffects :=
  let lex1 : LexemeContainer := { lex with loading := true, error := none }
  match apiResponse with
  | .ok _ =>
      { lexState := { lex1 with loading := false }, auth := auth,
        storage := sto, toasts := [], result := .ok () }
  | .error e =>
      let cleared := checkIf401Error auth sto e
      { lexState := { lex1 with error := some e.message, loading := false },
        auth := cleared.1, storage := cleared.2, toasts := [],
        result := .thrown e }

/-- C2: a 401 failure of addLabeledTranslation clears the auth token (and the
username) from the in-memory auth container and from the persisted store,
leaving the user unauthenticated. -/
theorem addLabeledTranslation_401_clears_auth (lex : LexemeContainer)
    (auth : AuthContainer) (sto : Storage) (e : ApiError)
    (h : e.status = some 401) :
    (addLabeledTranslation lex auth sto (.error e)).auth.token = none ∧
    (addLabeledTranslation lex auth sto (.error e)).storage.authTokenKey =
      none ∧
    (addLabeledTranslation lex auth sto (.error e)).auth.username = "" ∧
    (addLabeledTranslation lex auth sto (.error e)).storage.usernameKey =
      none := by
  simp [addLabeledTranslation, checkIf401Error, h]

/-- Witness for addLabeledTranslation_401_clears_auth on a logged-in state. -/
theorem addLabeledTranslation_401_clears_auth_witness :
    (addLabeledTranslation initialLexemeState ⟨some "tok", "alice"⟩
        { emptyStorage with authTokenKey := some "tok"
                            usernameKey := some "alice" }
        (.error ⟨"Unauthorized", some 401⟩)).auth.token = none ∧
    (addLabeledTranslation initialLexemeState ⟨some "tok", "alice"⟩
        { emptyStorage with authTokenKey := some "tok"
                            usernameKey := some "alice" }
        (.error ⟨"Unauthorized", some 401⟩)).storage.authTokenKey = none ∧
    (addLabeledTranslation initialLexemeState ⟨some "tok", "alice"⟩
        { emptyStorage with authTokenKey := some "tok"
                            usernameKey := some "alice" }
        (.error ⟨"Unauthorized", some 401⟩)).auth.username = "" ∧
    (addLabeledTranslation initialLexemeState ⟨some "tok", "alice"⟩
        { emptyStorage with authTokenKey := some "tok"
                            usernameKey := some "alice" }
        (.error ⟨"Unauthorized", some 401⟩)).storage.usernameKey = none :=
  addLabeledTranslation_401_clears_auth initialLexemeState
    ⟨some "tok", "alice"⟩
    { emptyStorage with authTokenKey := some "tok"
                        usernameKey := some "alice" }
    ⟨"Unauthorized", some 401⟩ rfl

/-- Effects of one logout invocation. -/
structure LogoutEffects where
  auth : AuthContainer
  storage : Storage
  toasts : List Toast
  result : OpResult Unit
deriving DecidableEq

/-- logout across the hook and the api client: on success the hook clears the
token and the username in memory and in the persisted store; on failure the
client first runs checkIf401Error on the normalized error, then the hook
shows a toast and re-throws without touching the auth state itself. -/
def logout (auth : AuthContainer) (sto : Storage)
    (apiResponse : Except ApiError Unit) : LogoutEffects :=
  match apiResponse with
  | .ok _ =>
      { auth := ⟨none, ""⟩,
        storage := { sto with authTokenKey := none, usernameKey := none },
        toasts := [], result := .ok () }
  | .error e =>
      let cleared := checkIf401Error auth sto e
      { auth := cleared.1, storage := cleared.2,
        toasts := [⟨"Logout failed", e.message⟩], result := .thrown e }

/-- Auth container of a logged-in demo session. -/
def demoAuth : AuthContainer := ⟨some "tok", "alice"⟩

/-- Storage of the logged-in demo session. -/
def demoAuthStorage : Storage :=
  { emptyStorage with authTokenKey := some "tok", usernameKey := some "alice" }

/-- C10: the claim states that every failed logout leaves the session
credentials intact.  A logout that fails with status 401 goes through the
session-expired handling of the api client, which clears the token: the auth
state is changed by that failure. -/
theorem c10_counterexample :
    (logout demoAuth demoAuthStorage
        (.error ⟨"Unauthorized", some 401⟩)).auth.token = none ∧
    demoAuth.token = some "tok" := by
  exact ⟨rfl, rfl⟩

/-- C10 (amended): a logout whose remote call fails with any status other
than 401 leaves the token and the username untouched in memory and in the
persisted store and re-throws; only a successful server logout (or the
session-expired handling of a 401) clears the credentials. -/
theorem logout_non401_failure_preserves_auth (auth : AuthContainer)
    (sto : Storage) (e : ApiError) (h : e.status ≠ some 401) :
    (logout auth sto (.error e)).auth = auth ∧
    (logout auth sto (.error e)).storage = sto ∧
    (logout auth sto (.error e)).result = .thrown e ∧
    (logout auth sto (.ok ())).auth = ⟨none, ""⟩ ∧
    (logout auth sto (.ok ())).storage.authTokenKey = none ∧
    (logout auth sto (.ok ())).storage.usernameKey = none := by
  simp [logout, checkIf401Error, h]

/-- Witness for logout_non401_failure_preserves_auth on a server error. -/
theorem logout_non401_failure_preserves_auth_witness :
    (logout demoAuth demoAuthStorage
        (.error ⟨"Server error", some 500⟩)).auth = demoAuth ∧
    (logout demoAuth demoAuthStorage
        (.error ⟨"Server error", some 500⟩)).storage = demoAuthStorage ∧
    (logout demoAuth demoAuthStorage
        (.error ⟨"Server error", some 500⟩)).result =
      .thrown ⟨"Server error", some 500⟩ ∧
    (logout demoAuth demoAuthStorage (.ok ())).auth = ⟨none, ""⟩ ∧
    (logout demoAuth demoAuthStorage (.ok ())).storage.authTokenKey = none ∧
    (logout demoAuth demoAuthStorage (.ok ())).storage.usernameKey = none :=
  logout_non401_failure_preserves_auth demoAuth demoAuthStorage
    ⟨"Server error", some 500⟩ (by decide)

/-- Client-side partition of a detail result by one language code, as
computed in the gloss-processing effect of src/components/LexemeDetails.tsx:
each tab view is a filter of the gloss list by the selected language code of
that tab, with no further network call. -/
def glossesForLanguage (r : LexemeDetailResult) (code : String) :
    List GlossWithSense :=
  r.glosses.filter (fun g => g.gloss.language == code)

/-- Helper: filtering a list by three pairwise distinct keys covering every
element splits it into a permutation of the original list. -/
theorem filter_three_keys_perm {α : Type} (key : α → String) (l : List α)
    (a b c : String) (hab : a ≠ b) (hac : a ≠ c) (hbc : b ≠ c)
    (hall : ∀ x ∈ l, key x = a ∨ key x = b ∨ key x = c) :
    (l.filter (fun x => key x == a) ++ l.filter (fun x => key x == b) ++
      l.filter (fun x => key x == c)).Perm l := by
  induction l with
  | nil => simp
  | cons x xs ih =>
    have hxs : ∀ y ∈ xs, key y = a ∨ key y = b ∨ key y = c :=
      fun y hy => hall y (List.mem_cons_of_mem x hy)
    have ihx := ih hxs
    rcases hall x (List.mem_cons_self x xs) with hx | hx | hx
    · simp only [List.filter_cons, hx, beq_iff_eq]
      split_ifs with h1 h2 h3 h4 h5 h6
      all_goals first
      | exact absurd h2 hab
      | exact absurd h3 hac
      | exact absurd h4 hab
      | exact absurd h5 hac
      | exact absurd h6 hac
      | (exact absurd rfl h1)
      | exact ihx.cons x
      | skip
      all_goals
        exact ((List.perm_middle).append_right _).trans (ihx.cons x)
    · simp only [List.filter_cons, hx, beq_iff_eq]
      split_ifs with h1 h2 h3 h4 h5 h6
      all_goals first
      | exact absurd h1.symm hab
      | exact absurd h2 hbc
      | exact absurd h3 hbc
      | exact absurd h5 hbc
      | exact absurd h6 hbc
      | skip
      all_goals
        refine List.Perm.trans ?_ (ihx.cons x)
        simpa [List.append_assoc] using
          (@List.perm_middle _ x (xs.filter (fun y => key y == a))
            (xs.filter (fun y => key y == b) ++
              xs.filter (fun y => key y == c)))
    · simp only [List.filter_cons, hx, beq_iff_eq]
      split_ifs with h1 h2 h3 h4 h5 h6
      all_goals first
      | exact absurd h1.symm hac
      | exact absurd h2.symm hbc
      | exact absurd h3.symm hbc
      | exact absurd h4.symm hbc
      | skip
      all_goals
        refine List.Perm.trans ?_ (ihx.cons x)
        simpa [List.append_assoc] using
          (@List.perm_middle _ x
            (xs.filter (fun y => key y == a) ++
              xs.filter (fun y => key y == b))
            (xs.filter (fun y => key y == c)))

/-- C9: for a detail result whose glosses all carry one of three pairwise
distinct selected codes, the three filtered tab views are pairwise disjoint
and their concatenation is a permutation of (recovers, as a multiset) the
original gloss list; the partition is the pure filter glossesForLanguage,
defined with no network component. -/
theorem gloss_partition_correct (r : LexemeDetailResult) (a b c : String)
    (hab : a ≠ b) (hac : a ≠ c) (hbc : b ≠ c)
    (hall : ∀ g ∈ r.glosses, g.gloss.language = a ∨ g.gloss.language = b ∨
      g.gloss.language = c) :
    (glossesForLanguage r a ++ glossesForLanguage r b ++
      glossesForLanguage r c).Perm r.glosses ∧
    (∀ g ∈ glossesForLanguage r a, g ∉ glossesForLanguage r b) ∧
    (∀ g ∈ glossesForLanguage r a, g ∉ glossesForLanguage r c) ∧
    (∀ g ∈ glossesForLanguage r b, g ∉ glossesForLanguage r c) := by
  refine ⟨?_, ?_, ?_, ?_⟩
  · exact filter_three_keys_perm (fun g => g.gloss.language) r.glosses a b c
      hab hac hbc hall
  all_goals
    intro g hg hg2
    simp only [glossesForLanguage, List.mem_filter, beq_iff_eq] at hg hg2
  · exact hab (hg.2 ▸ hg2.2)
  · exact hac (hg.2 ▸ hg2.2)
  · exact hbc (hg.2 ▸ hg2.2)

/-- Detail result with one gloss in each of English, Spanish and French. -/
def demoDetail : LexemeDetailResult :=
  ⟨⟨"L10", none, "Q5", "noun"⟩,
   [⟨"S1", ⟨"F1", some "cat", "en", none⟩⟩,
    ⟨"S2", ⟨"F2", some "gato", "es", none⟩⟩,
    ⟨"S3", ⟨"F3", some "chat", "fr", none⟩⟩]⟩

/-- Witness for gloss_partition_correct on the three-language demo result. -/
theorem gloss_partition_correct_witness :
    (glossesForLanguage demoDetail "en" ++ glossesForLanguage demoDetail "es" ++
      glossesForLanguage demoDetail "fr").Perm demoDetail.glosses ∧
    (∀ g ∈ glossesForLanguage demoDetail "en",
      g ∉ glossesForLanguage demoDetail "es") ∧
    (∀ g ∈ glossesForLanguage demoDetail "en",
      g ∉ glossesForLanguage demoDetail "fr") ∧
    (∀ g ∈ glossesForLanguage demoDetail "es",
      g ∉ glossesForLanguage demoDetail "fr") :=
  gloss_partition_correct demoDetail "en" "es" "fr" (by decide) (by decide)
    (by decide) (by decide)

/-- One input event of the search bar: the time at which the text changed and
the new text value. -/
structure InputEvent where
  time : Nat
  text : String
deriving DecidableEq

/-- Source language code the search bar passes along (the lang_code of the
selected source language, or the empty string fallback when none is
selected). -/
def srcCode (src : Option Language) : String :=
  match src with
  | some s => s.lang_code
  | none => ""

/-- Network calls the hook lets through for one searchLexemes invocation:
none when the precondition fails, the single request otherwise. -/
def hookSearchCalls (request : LexemeSearchRequest) :
    List LexemeSearchRequest :=
  if request.search = "" ∨ request.src_lang = "" then [] else [request]

/-- Helper: hookSearchCalls is exactly the network-call trace of the embedded
searchLexemes operation, whatever the states and the response. -/
theorem searchLexemes_networkCalls (st : LexemeContainer) (sto : Storage)
    (request : LexemeSearchRequest)
    (api : Except ApiError (List LexemeSearchResult)) :
    (searchLexemes st sto request api).networkCalls =
      hookSearchCalls request := by
  unfold searchLexemes hookSearchCalls
  split
  · rfl
  · cases api <;> rfl

/-- Immediate network calls of handleInputChange in SearchBar for one input
event: a blank (trim-empty) text returns before searching; otherwise
searchLexemes is invoked directly with the text and the current source code. -/
def immediateCalls (src : Option Language) (text : String) :
    List LexemeSearchRequest :=
  if jsTrim text = "" then []
  else hookSearchCalls ⟨0, text, srcCode src⟩

/-- Network calls of the debounce timer callback of SearchBar when it fires
with query q: the callback guards on a non-blank trimmed query and a selected
source language before invoking searchLexemes. -/
def debouncedCalls (src : Option Language) (q : String) :
    List LexemeSearchRequest :=
  match src with
  | none => []
  | some s => if jsTrim q = "" then [] else hookSearchCalls ⟨0, q, s.lang_code⟩

/-- Run the search bar of src/components/SearchBar.tsx over a chronological
list of input events, with pending carrying the debounce timer state (query
and expiry time), collecting every network call in order.  At each event a
pending timer that expires no later than the event fires first; a non-blank
event then issues the immediate handleInputChange call and restarts the
timer for 300 time units (clearTimeout plus setTimeout in debouncedSearch),
while a blank event hides the suggestions without touching the previous
timer; after the last event the surviving timer fires. -/
def runSearchBar (src : Option Language) :
    List InputEvent → Option (String × Nat) → List LexemeSearchRequest
  | [], pending =>
      match pending with
      | none => []
      | some (q, _) => debouncedCalls src q
  | e :: rest, pending =>
      let fired : List LexemeSearchRequest :=
        match pending with
        | some (q, ft) => if ft ≤ e.time then debouncedCalls src q else []
        | none => []
      let pending1 : Option (String × Nat) :=
        match pending with
        | some (q, ft) => if ft ≤ e.time then none else some (q, ft)
        | none => none
      if jsTrim e.text = "" then
        fired ++ runSearchBar src rest pending1
      else
        fired ++ immediateCalls src e.text ++
          runSearchBar src rest (some (e.text, e.time + 300))

/-- English source language used in the debounce scenario. -/
def enLang : Language := ⟨"en", "English", "Q1"⟩

/-- Typing cat and then catalog 100 time units later, within one debounce
window. -/
def c3Events : List InputEvent := [⟨0, "cat"⟩, ⟨100, "catalog"⟩]

/-- C3: the claim states that two inputs within one debounce window produce
exactly one network call, for the latest value.  The debounced path does
produce exactly one call (for catalog), but handleInputChange additionally
invokes searchLexemes directly on every keystroke, so the scenario issues
three calls: cat immediately, catalog immediately, catalog debounced. -/
theorem c3_counterexample :
    runSearchBar (some enLang) c3Events none =
      [⟨0, "cat", "en"⟩, ⟨0, "catalog", "en"⟩, ⟨0, "catalog", "en"⟩] ∧
    (runSearchBar (some enLang) c3Events none).length ≠ 1 := by
  exact ⟨rfl, by decide⟩

/-- C3 (amended): for two non-blank inputs within one debounce window the
earlier input's timer is cancelled and produces no call, and the debounced
path issues exactly one call carrying the latest value; but since
handleInputChange also searches immediately on each input, the full trace is
the immediate call for the first value, the immediate call for the second
value, and the one debounced call for the second (latest) value. -/
theorem debounce_window_trace (src : Option Language) (e1 e2 : InputEvent)
    (horder : e1.time ≤ e2.time) (hwin : e2.time < e1.time + 300)
    (h1 : jsTrim e1.text ≠ "") (h2 : jsTrim e2.text ≠ "") :
    runSearchBar src [e1, e2] none =
      immediateCalls src e1.text ++ immediateCalls src e2.text ++
        debouncedCalls src e2.text := by
  have hcancel : ¬ (e1.time + 300 ≤ e2.time) := by omega
  simp [runSearchBar, h1, h2, hcancel]

/-- Witness for debounce_window_trace on the cat-catalog scenario. -/
theorem debounce_window_trace_witness :
    runSearchBar (some enLang) [⟨0, "cat"⟩, ⟨100, "catalog"⟩] none =
      immediateCalls (some enLang) "cat" ++
        immediateCalls (some enLang) "catalog" ++
        debouncedCalls (some enLang) "catalog" :=
  debounce_window_trace (some enLang) ⟨0, "cat"⟩ ⟨100, "catalog"⟩
    (by decide) (by decide) (by decide) (by decide)

end Pula
